import Mathlib

/-!
Verification of the HTTP backend in src/src/api/routes.py.

The file shallowly embeds the route handlers and the SSE event-translation
layer. Remote-service operations of the Azure AI client (get_thread,
create_thread, create_message, get_file) and the local file read are modelled
as oracle parameters of type Except String _, where Except.error e stands for
a raised exception whose str() is e. SSE frames are modelled structurally as
the dictionary passed to serialize_sse_event, before JSON serialization; the
serialization wrapper itself is injective plumbing and is not re-modelled.
-/

/-- Model of azure MessageDeltaChunk: only the text property is used. -/
structure MessageDeltaChunk where
  text : String
deriving DecidableEq

/-- One file-citation annotation of a thread message, as the as_dict value
used in on_thread_message: the code reads annotation["file_citation"]["file_id"]. -/
structure FileCitation where
  file_id : String
deriving DecidableEq

/-- A file-citation annotation after enrichment: the code adds the key
"file_name" holding the filename fetched from the remote service. -/
structure EnrichedCitation where
  file_id : String
  file_name : String
deriving DecidableEq

/-- Model of azure ThreadMessage: identifier, status, the file-citation
annotations, and the values message.text_messages[k].text.value as strings. -/
structure ThreadMessage where
  id : String
  status : String
  file_citation_annotations : List FileCitation
  text_messages : List String
deriving DecidableEq

/-- Model of azure ThreadRun: the fields read by on_thread_run. -/
structure ThreadRun where
  status : String
  thread_id : String
  last_error : String
deriving DecidableEq

/-- The dictionaries passed to serialize_sse_event by the event handler and
by get_result, one constructor per dict shape occurring in routes.py. -/
inductive StreamData where
  | message (content : String)
  | completed_message (content : String) (enriched : List EnrichedCitation)
  | thread_run (content : String)
  | stream_end
  | error (message : String)
deriving DecidableEq

/-- True exactly for the error frame yielded by the except branch of get_result. -/
def StreamData.isError : StreamData → Bool
  | StreamData.error _ => true
  | _ => false

/-- MyEventHandler.on_message_delta: always returns one message-typed frame
holding the delta text. -/
def on_message_delta (delta : MessageDeltaChunk) : Option StreamData :=
  some (StreamData.message delta.text)

/-- The enrichment loop of on_thread_message: for each annotation, fetch the
cited file via the get_file oracle and add its filename under "file_name".
The first failing lookup aborts the loop with that exception. -/
def enrich_citations (get_file : String → Except String String) :
    List FileCitation → Except String (List EnrichedCitation)
  | [] => Except.ok []
  | c :: rest => do
    let file_name ← get_file c.file_id
    let tail ← enrich_citations get_file rest
    Except.ok (EnrichedCitation.mk c.file_id file_name :: tail)

/-- MyEventHandler.on_thread_message: a non-completed message yields None;
for a completed message the annotations are enriched and one
completed_message frame is returned, holding message.text_messages[0] and the
enriched annotations. Any exception in the try block — a failed get_file
lookup, or the IndexError from text_messages[0] on an empty list — is caught,
logged and turned into None. -/
def on_thread_message (get_file : String → Except String String)
    (message : ThreadMessage) : Option StreamData :=
  if message.status != "completed" then
    none
  else
    match enrich_citations get_file message.file_citation_annotations with
    | Except.error _ => none
    | Except.ok enriched =>
      match message.text_messages.head? with
      | none => none
      | some content => some (StreamData.completed_message content enriched)

/-- MyEventHandler.on_thread_run: always returns one thread_run frame with the
formatted run info, appending the last error when the status is failed. -/
def on_thread_run (run : ThreadRun) : Option StreamData :=
  let run_info := "ThreadRun status: " ++ run.status ++ ", thread ID: " ++ run.thread_id
  let run_info :=
    if run.status == "failed" then run_info ++ ", error: " ++ run.last_error else run_info
  some (StreamData.thread_run run_info)

/-- MyEventHandler.on_error: a stream-level error event yields a stream_end frame. -/
def on_error (_data : String) : Option StreamData :=
  some StreamData.stream_end

/-- MyEventHandler.on_done: stream completion yields a stream_end frame. -/
def on_done : Option StreamData :=
  some StreamData.stream_end

/-- One remote streaming event dispatched to MyEventHandler by the SDK while
iterating the stream (the on_done completion callback is handled separately,
in get_result). -/
inductive AgentEvent where
  | delta (chunk : MessageDeltaChunk)
  | threadMessage (message : ThreadMessage)
  | threadRun (run : ThreadRun)
  | errorEvent (data : String)
deriving DecidableEq

/-- The per-event dispatch performed by the SDK stream iteration: each tuple
yielded by the stream carries the return value of the matching handler method. -/
def handle_event (get_file : String → Except String String) :
    AgentEvent → Option StreamData
  | AgentEvent.delta chunk => on_message_delta chunk
  | AgentEvent.threadMessage m => on_thread_message get_file m
  | AgentEvent.threadRun r => on_thread_run r
  | AgentEvent.errorEvent d => on_error d

/-- One run of the remote stream as observed by get_result: either the
iteration completes normally after delivering the listed events (the SDK then
invokes on_done), or stream creation or consumption raises after the listed
events were processed (creation failure is raised with an empty prefix). -/
inductive StreamOutcome where
  | completed (events : List AgentEvent)
  | raised (processed : List AgentEvent) (message : String)
deriving DecidableEq

/-- get_result: iterate the stream, yielding every truthy handler return
value; on normal completion the on_done frame is the final yield, while any
exception from stream creation or consumption is caught and a single
error-typed frame is yielded last. -/
def get_result (get_file : String → Except String String) :
    StreamOutcome → List StreamData
  | StreamOutcome.completed events =>
      events.filterMap (handle_event get_file) ++ (on_done).toList
  | StreamOutcome.raised processed msg =>
      processed.filterMap (handle_event get_file) ++ [StreamData.error msg]

/-- Model of azure Agent: only the id attribute is used by the routes. -/
structure Agent where
  id : String
deriving DecidableEq

/-- Model of the thread object returned by get_thread / create_thread. -/
structure AgentThread where
  id : String
deriving DecidableEq

/-- One remote-service call issued by the chat handler before streaming starts. -/
inductive RemoteCall where
  | getThread (thread_id : String)
  | createThread
  | createMessage (thread_id : String) (role : String) (content : String)
deriving DecidableEq

/-- The streaming response built at the end of chat: the two cookies set on it
and the Content-Type header of the headers dict. -/
structure StreamingInfo where
  cookie_thread_id : String
  cookie_agent_id : String
  content_type : String
deriving DecidableEq

/-- The response of the chat handler: either a raised HTTPException with its
status code and detail string, or the streaming SSE response. -/
inductive ChatResponse where
  | httpError (status : Nat) (detail : String)
  | streaming (info : StreamingInfo)
deriving DecidableEq

/-- HTTP status of a chat response (a successfully returned StreamingResponse
has status 200). -/
def ChatResponse.statusCode : ChatResponse → Nat
  | ChatResponse.httpError s _ => s
  | ChatResponse.streaming _ => 200

/-- Result of one chat request: the response together with the trace of
remote-service calls issued by the handler, in order. -/
structure ChatResult where
  response : ChatResponse
  calls : List RemoteCall
deriving DecidableEq

/-- Python truthiness of an optional cookie or query-parameter string:
request.cookies.get / query_params.get returns None when absent, and both
None and the empty string are falsy. -/
def pyTruthy : Option String → Bool
  | none => false
  | some s => !s.isEmpty

/-- The thread step of chat: if the thread_id cookie is truthy and the
agent_id cookie equals agent.id, retrieve the existing thread, else create a
new one. Returns the Except result together with the remote call issued
(the call is issued whether or not it raises). -/
def thread_step (agent : Agent)
    (cookie_thread_id : Option String) (cookie_agent_id : Option String)
    (get_thread : String → Except String AgentThread)
    (create_thread : Except String AgentThread) :
    Except String AgentThread × List RemoteCall :=
  if pyTruthy cookie_thread_id && (cookie_agent_id == some agent.id) then
    (get_thread (cookie_thread_id.getD ""),
      [RemoteCall.getThread (cookie_thread_id.getD "")])
  else
    (create_thread, [RemoteCall.createThread])

/-- The chat handler. Its request-dependent inputs are the two cookies and
the body-parse outcome: request.json() followed by user_data.get applied to
the string "message" is modelled as Except String (Option String), where
Except.error e is the exception raised by json parsing (or by .get on a
non-dict body) and the payload is the optional value of the message field.
The oracles get_thread, create_thread and create_message model the remote
service; create_message returns the created message id. -/
def chat (agent : Agent)
    (cookie_thread_id : Option String) (cookie_agent_id : Option String)
    (get_thread : String → Except String AgentThread)
    (create_thread : Except String AgentThread)
    (body : Except String (Option String))
    (create_message : String → String → String → Except String String) :
    ChatResult :=
  match thread_step agent cookie_thread_id cookie_agent_id get_thread create_thread with
  | (Except.error e, calls0) =>
      ChatResult.mk (ChatResponse.httpError 400 ("Thread error: " ++ e)) calls0
  | (Except.ok thread, calls0) =>
      let thread_id := thread.id
      let agent_id := agent.id
      match body with
      | Except.error e =>
          ChatResult.mk (ChatResponse.httpError 400 ("Invalid JSON: " ++ e)) calls0
      | Except.ok message_field =>
          let user_message := message_field.getD ""
          match create_message thread_id "user" user_message with
          | Except.error e =>
              ChatResult.mk
                (ChatResponse.httpError 500 ("Message creation error: " ++ e))
                (calls0 ++ [RemoteCall.createMessage thread_id "user" user_message])
          | Except.ok _ =>
              ChatResult.mk
                (ChatResponse.streaming
                  (StreamingInfo.mk thread_id agent_id "text/event-stream"))
                (calls0 ++ [RemoteCall.createMessage thread_id "user" user_message])

/-- The UPLOADED_FILE_MAP environment value as seen by fetch_document:
absent (os.environ.get default, which json.loads turns into the empty map),
present but not parseable as JSON (json.loads raises JSONDecodeError), or a
parsed JSON object mapping file display names to their path fields. Per the
configuration contract each entry object carries a path field; JSON objects
have unique keys, so the map is an association list with distinct keys. -/
inductive EnvValue where
  | absent
  | malformed (raw : String)
  | parsed (files : List (String × String))
deriving DecidableEq

/-- The files dict computed by fetch_document from the environment value:
a JSONDecodeError is caught and the map degraded to empty. -/
def loadFileMap : EnvValue → List (String × String)
  | EnvValue.absent => []
  | EnvValue.malformed _ => []
  | EnvValue.parsed files => files

/-- The response of fetch_document: a raised HTTPException, the JSONResponse
of the except branch, or the PlainTextResponse with the file contents. -/
inductive FetchResponse where
  | httpError (status : Nat) (detail : String)
  | jsonError (status : Nat) (error : String)
  | plainText (body : String)
deriving DecidableEq

/-- HTTP status of a fetch_document response (PlainTextResponse is 200). -/
def FetchResponse.statusCode : FetchResponse → Nat
  | FetchResponse.httpError s _ => s
  | FetchResponse.jsonError s _ => s
  | FetchResponse.plainText _ => 200

/-- The fetch_document handler. file_name is the optional query parameter;
read_file models the synchronous file read dispatched via asyncio.to_thread,
with Except.error e the exception whose str() is e. -/
def fetch_document (file_name : Option String) (env : EnvValue)
    (read_file : String → Except String String) : FetchResponse :=
  if !pyTruthy file_name then
    FetchResponse.httpError 400 "file_name is required"
  else
    let name := file_name.getD ""
    match (loadFileMap env).lookup name with
    | none => FetchResponse.httpError 404 "File not found"
    | some path =>
      match read_file path with
      | Except.error e => FetchResponse.jsonError 500 e
      | Except.ok data => FetchResponse.plainText data

/-- Claim C9: every partial-message (delta) event yields exactly one SSE frame
of type message whose content equals the delta text; in a stream consisting of
that one event the frame is yielded exactly once, followed by stream_end. -/
theorem on_message_delta_one_frame (gf : String → Except String String)
    (chunk : MessageDeltaChunk) :
    handle_event gf (AgentEvent.delta chunk) = some (StreamData.message chunk.text)
    ∧ get_result gf (StreamOutcome.completed [AgentEvent.delta chunk])
      = [StreamData.message chunk.text, StreamData.stream_end] :=
  ⟨rfl, rfl⟩

/-- Claim C10: a present-but-empty file_name query parameter is rejected with
HTTP 400 exactly like a missing one, for every environment value and file
oracle — the map is never consulted. -/
theorem fetch_document_empty_name_as_missing (env : EnvValue)
    (rf : String → Except String String) :
    fetch_document (some "") env rf = FetchResponse.httpError 400 "file_name is required"
    ∧ fetch_document (some "") env rf = fetch_document none env rf :=
  ⟨rfl, rfl⟩

/-- Claim C6 counterexample: with a malformed UPLOADED_FILE_MAP, the request
carrying the present-but-empty file_name parameter is answered 400, not 404,
refuting the claim for that input. -/
theorem fetch_document_malformed_env_empty_name_not_404 :
    (fetch_document (some "") (EnvValue.malformed "not json")
        (fun _ => Except.ok "")).statusCode = 400
    ∧ (fetch_document (some "") (EnvValue.malformed "not json")
        (fun _ => Except.ok "")).statusCode ≠ 404 :=
  ⟨rfl, by decide⟩

/-- Claim C6 (amended): if UPLOADED_FILE_MAP is absent or not parseable as
JSON, the file map degrades to empty and every fetch-document call with a
non-empty file_name returns HTTP 404 (an empty file_name returns 400). -/
theorem fetch_document_degraded_map_404 (name raw : String)
    (rf : String → Except String String) (h : name ≠ "") :
    fetch_document (some name) EnvValue.absent rf
      = FetchResponse.httpError 404 "File not found"
    ∧ fetch_document (some name) (EnvValue.malformed raw) rf
      = FetchResponse.httpError 404 "File not found" := by
  constructor <;>
    simp [fetch_document, pyTruthy, String.isEmpty_iff, h, loadFileMap]

/-- Claim C6 witness at a concrete input. -/
theorem fetch_document_degraded_map_404_witness :
    fetch_document (some "report.txt") EnvValue.absent (fun _ => Except.ok "")
      = FetchResponse.httpError 404 "File not found"
    ∧ fetch_document (some "report.txt") (EnvValue.malformed "oops")
        (fun _ => Except.ok "")
      = FetchResponse.httpError 404 "File not found" :=
  fetch_document_degraded_map_404 "report.txt" "oops" (fun _ => Except.ok "") (by decide)

/-- Claim C7: fetch_document returns 400 when file_name is missing, 404 when
the name is not a key of the file map, 500 with the error message when the
mapped path cannot be read, and 200 with the exact file contents when it can. -/
theorem fetch_document_response_spec (env : EnvValue)
    (rf : String → Except String String) :
    fetch_document none env rf = FetchResponse.httpError 400 "file_name is required"
    ∧ (∀ name, name ≠ "" → (loadFileMap env).lookup name = none →
        fetch_document (some name) env rf = FetchResponse.httpError 404 "File not found")
    ∧ (∀ name path, name ≠ "" → (loadFileMap env).lookup name = some path →
        (∀ e, rf path = Except.error e →
          fetch_document (some name) env rf = FetchResponse.jsonError 500 e)
        ∧ (∀ data, rf path = Except.ok data →
          fetch_document (some name) env rf = FetchResponse.plainText data)) := by
  refine ⟨rfl, ?_, ?_⟩
  · intro name hne hlook
    simp [fetch_document, pyTruthy, String.isEmpty_iff, hne, hlook]
  · intro name path hne hlook
    constructor
    · intro e he
      simp [fetch_document, pyTruthy, String.isEmpty_iff, hne, hlook, he]
    · intro data hd
      simp [fetch_document, pyTruthy, String.isEmpty_iff, hne, hlook, hd]

/-- Claim C7 witness at concrete inputs, one per branch. -/
theorem fetch_document_response_spec_witness :
    fetch_document none (EnvValue.parsed [("a", "p")]) (fun _ => Except.ok "hello")
      = FetchResponse.httpError 400 "file_name is required"
    ∧ fetch_document (some "b") (EnvValue.parsed [("a", "p")]) (fun _ => Except.ok "hello")
      = FetchResponse.httpError 404 "File not found"
    ∧ fetch_document (some "a") (EnvValue.parsed [("a", "p")]) (fun _ => Except.error "boom")
      = FetchResponse.jsonError 500 "boom"
    ∧ fetch_document (some "a") (EnvValue.parsed [("a", "p")]) (fun _ => Except.ok "hello")
      = FetchResponse.plainText "hello" := by
  refine ⟨(fetch_document_response_spec _ _).1, ?_, ?_, ?_⟩
  · exact (fetch_document_response_spec _ _).2.1 "b" (by decide) (by decide)
  · exact ((fetch_document_response_spec _ (fun _ => Except.error "boom")).2.2
      "a" "p" (by decide) (by decide)).1 "boom" rfl
  · exact ((fetch_document_response_spec _ (fun _ => Except.ok "hello")).2.2
      "a" "p" (by decide) (by decide)).2 "hello" rfl

/-- Claim C5 counterexample: a completed thread message with no annotations
and no text segments satisfies the claim guard (status completed, no lookup
failure) yet yields no frame, because text_messages[0] raises and the
exception is caught. -/
theorem on_thread_message_completed_empty_text_none :
    on_thread_message (fun _ => Except.ok "doc.txt")
        (ThreadMessage.mk "m1" "completed" [] []) = none
    ∧ (ThreadMessage.mk "m1" "completed" [] []).status = "completed"
    ∧ enrich_citations (fun _ => Except.ok "doc.txt")
        (ThreadMessage.mk "m1" "completed" [] []).file_citation_annotations
      = Except.ok [] :=
  ⟨rfl, rfl, rfl⟩

/-- Claim C5 (amended): a thread message with status other than completed
yields no frame; a completed message whose annotation lookup fails yields no
frame and the surrounding stream still terminates normally; and a completed
message with at least one text segment whose lookups all succeed yields
exactly one completed_message frame carrying the first text segment and the
enriched annotations (a completed message with no text segment also yields
nothing, the caught index error). -/
theorem on_thread_message_spec (gf : String → Except String String)
    (m : ThreadMessage) :
    (m.status ≠ "completed" → on_thread_message gf m = none)
    ∧ (∀ e, enrich_citations gf m.file_citation_annotations = Except.error e →
        on_thread_message gf m = none
        ∧ get_result gf (StreamOutcome.completed [AgentEvent.threadMessage m])
          = [StreamData.stream_end])
    ∧ (∀ t ts enr, m.status = "completed" → m.text_messages = t :: ts →
        enrich_citations gf m.file_citation_annotations = Except.ok enr →
        on_thread_message gf m = some (StreamData.completed_message t enr)) := by
  refine ⟨?_, ?_, ?_⟩
  · intro h
    simp [on_thread_message, h]
  · intro e he
    have hnone : on_thread_message gf m = none := by
      by_cases hs : m.status = "completed"
      · simp [on_thread_message, hs, he]
      · simp [on_thread_message, hs]
    refine ⟨hnone, ?_⟩
    simp [get_result, handle_event, hnone, on_done]
  · intro t ts enr hs ht hok
    simp [on_thread_message, hs, ht, hok]

/-- Claim C5 witness: the three branches at concrete inputs. -/
theorem on_thread_message_spec_witness :
    on_thread_message (fun _ => Except.ok "doc.txt")
        (ThreadMessage.mk "a" "in_progress" [] ["x"]) = none
    ∧ on_thread_message (fun _ => Except.error "nope")
        (ThreadMessage.mk "b" "completed" [FileCitation.mk "f1"] ["x"]) = none
    ∧ get_result (fun _ => Except.error "nope")
        (StreamOutcome.completed
          [AgentEvent.threadMessage (ThreadMessage.mk "b" "completed" [FileCitation.mk "f1"] ["x"])])
      = [StreamData.stream_end]
    ∧ on_thread_message (fun _ => Except.ok "doc.txt")
        (ThreadMessage.mk "c" "completed" [FileCitation.mk "f1"] ["hello"])
      = some (StreamData.completed_message "hello" [EnrichedCitation.mk "f1" "doc.txt"]) := by
  refine ⟨?_, ?_, ?_, ?_⟩
  · exact (on_thread_message_spec (fun _ => Except.ok "doc.txt")
      (ThreadMessage.mk "a" "in_progress" [] ["x"])).1 (by decide)
  · exact ((on_thread_message_spec (fun _ => Except.error "nope")
      (ThreadMessage.mk "b" "completed" [FileCitation.mk "f1"] ["x"])).2.1 "nope" rfl).1
  · exact ((on_thread_message_spec (fun _ => Except.error "nope")
      (ThreadMessage.mk "b" "completed" [FileCitation.mk "f1"] ["x"])).2.1 "nope" rfl).2
  · exact (on_thread_message_spec (fun _ => Except.ok "doc.txt")
      (ThreadMessage.mk "c" "completed" [FileCitation.mk "f1"] ["hello"])).2.2
      "hello" [] [EnrichedCitation.mk "f1" "doc.txt"] rfl rfl rfl

/-- No handler method ever returns an error-typed frame: the error frame is
produced only by the except branch of get_result itself. -/
lemma handle_event_not_isError (gf : String → Except String String)
    (e : AgentEvent) (d : StreamData) (h : handle_event gf e = some d) :
    d.isError = false := by
  cases e with
  | delta chunk =>
    simp [handle_event, on_message_delta] at h
    rw [← h]
    rfl
  | threadMessage m =>
    simp only [handle_event] at h
    unfold on_thread_message at h
    split at h
    · exact absurd h (by simp)
    · split at h
      · exact absurd h (by simp)
      · split at h
        · exact absurd h (by simp)
        · simp only [Option.some.injEq] at h
          rw [← h]
          rfl
  | threadRun r =>
    simp [handle_event, on_thread_run] at h
    rw [← h]
    rfl
  | errorEvent s =>
    simp [handle_event, on_error] at h
    rw [← h]
    rfl

/-- The frames produced from stream events contain no error-typed frame. -/
lemma filter_isError_filterMap (gf : String → Except String String)
    (l : List AgentEvent) :
    (l.filterMap (handle_event gf)).filter (fun d => d.isError) = [] := by
  induction l with
  | nil => rfl
  | cons e rest ih =>
    cases h : handle_event gf e with
    | none => simpa [List.filterMap_cons, h] using ih
    | some d =>
      simp [List.filterMap_cons, h, List.filter_cons,
        handle_event_not_isError gf e d h, ih]

/-- Claim C8: when stream creation or consumption raises, the SSE sequence
contains exactly one error-typed frame, and that frame is the last one
yielded — nothing follows it and no retry happens. -/
theorem get_result_raised_single_error (gf : String → Except String String)
    (p : List AgentEvent) (m : String) :
    (get_result gf (StreamOutcome.raised p m)).getLast? = some (StreamData.error m)
    ∧ (get_result gf (StreamOutcome.raised p m)).filter (fun d => d.isError)
      = [StreamData.error m] := by
  constructor
  · simp only [get_result]
    rw [List.getLast?_append_cons]
    rfl
  · simp only [get_result]
    rw [List.filter_append, filter_isError_filterMap]
    rfl

/-- Claim C2 counterexample: when stream creation raises, the last frame
yielded is the error frame, not stream_end. -/
theorem get_result_raised_last_not_stream_end :
    (get_result (fun _ => Except.ok "f") (StreamOutcome.raised [] "boom")).getLast?
      = some (StreamData.error "boom")
    ∧ (get_result (fun _ => Except.ok "f") (StreamOutcome.raised [] "boom")).getLast?
      ≠ some StreamData.stream_end :=
  ⟨rfl, by decide⟩

/-- Claim C2 (amended): the streaming chat response carries the
text/event-stream content type; a stream run that completes without raising
terminates with a stream_end frame; a run where stream creation or
consumption raises terminates with the error frame instead. -/
theorem chat_stream_termination (gf : String → Except String String)
    (events p : List AgentEvent) (m : String) (agent : Agent)
    (ct ca : Option String) (gt : String → Except String AgentThread)
    (cth : Except String AgentThread) (body : Except String (Option String))
    (cm : String → String → String → Except String String) :
    (get_result gf (StreamOutcome.completed events)).getLast?
      = some StreamData.stream_end
    ∧ (get_result gf (StreamOutcome.raised p m)).getLast?
      = some (StreamData.error m)
    ∧ (∀ info, (chat agent ct ca gt cth body cm).response = ChatResponse.streaming info →
        info.content_type = "text/event-stream") := by
  refine ⟨?_, ?_, ?_⟩
  · simp only [get_result, on_done, Option.toList_some]
    rw [List.getLast?_append_cons]
    rfl
  · simp only [get_result]
    rw [List.getLast?_append_cons]
    rfl
  · intro info h
    unfold chat at h
    split at h
    · simp [ChatResult.mk] at h
    · split at h
      · simp [ChatResult.mk] at h
      · dsimp only at h
        split at h
        · simp [ChatResult.mk] at h
        · simp only [ChatResult.mk, ChatResponse.streaming.injEq] at h
          rw [← h]

/-- Claim C2 witness: a normally completing empty stream ends in stream_end,
and a concrete successful chat request carries the event-stream content type. -/
theorem chat_stream_termination_witness :
    (get_result (fun _ => Except.ok "f") (StreamOutcome.completed [])).getLast?
      = some StreamData.stream_end
    ∧ (StreamingInfo.mk "T" "A" "text/event-stream").content_type
      = "text/event-stream" :=
  ⟨(chat_stream_termination (fun _ => Except.ok "f") [] [] "m" (Agent.mk "A")
      none none (fun _ => Except.ok (AgentThread.mk "T"))
      (Except.ok (AgentThread.mk "T")) (Except.ok (some "hi"))
      (fun _ _ _ => Except.ok "mid")).1,
   (chat_stream_termination (fun _ => Except.ok "f") [] [] "m" (Agent.mk "A")
      none none (fun _ => Except.ok (AgentThread.mk "T"))
      (Except.ok (AgentThread.mk "T")) (Except.ok (some "hi"))
      (fun _ _ _ => Except.ok "mid")).2.2
      (StreamingInfo.mk "T" "A" "text/event-stream") rfl⟩

/-- The thread step issues exactly one remote call: either the retrieval of
the cookie thread or the creation of a new one. -/
lemma thread_step_calls (agent : Agent) (ct ca : Option String)
    (gt : String → Except String AgentThread) (cth : Except String AgentThread) :
    (thread_step agent ct ca gt cth).2 = [RemoteCall.getThread (ct.getD "")]
    ∨ (thread_step agent ct ca gt cth).2 = [RemoteCall.createThread] := by
  unfold thread_step
  split
  · exact Or.inl rfl
  · exact Or.inr rfl

/-- With a non-empty thread_id cookie and a matching agent_id cookie, the
thread step retrieves the existing thread. -/
lemma thread_step_reuse (agent : Agent) (t : String) (ca : Option String)
    (gt : String → Except String AgentThread) (cth : Except String AgentThread)
    (h1 : t ≠ "") (h2 : ca = some agent.id) :
    thread_step agent (some t) ca gt cth = (gt t, [RemoteCall.getThread t]) := by
  have ht : t.isEmpty = false := by
    rcases Bool.eq_false_or_eq_true t.isEmpty with hb | hb
    · exact absurd ((String.isEmpty_iff t).mp hb) h1
    · exact hb
  unfold thread_step
  rw [if_pos]
  · simp
  · simp [pyTruthy, ht, h2]

/-- With a falsy thread_id cookie or a mismatched agent_id cookie, the thread
step creates a new thread. -/
lemma thread_step_fresh (agent : Agent) (ct ca : Option String)
    (gt : String → Except String AgentThread) (cth : Except String AgentThread)
    (h : pyTruthy ct = false ∨ ca ≠ some agent.id) :
    thread_step agent ct ca gt cth = (cth, [RemoteCall.createThread]) := by
  unfold thread_step
  rw [if_neg]
  intro hcond
  rcases h with h | h
  · rw [h] at hcond
    exact absurd hcond (by simp)
  · exact h (by simpa using (Bool.and_elim_right hcond))

/-- The call trace of a chat request is the thread-step call, followed by at
most one user-role message creation. -/
lemma chat_calls_structure (agent : Agent) (ct ca : Option String)
    (gt : String → Except String AgentThread) (cth : Except String AgentThread)
    (body : Except String (Option String))
    (cm : String → String → String → Except String String) :
    (chat agent ct ca gt cth body cm).calls = (thread_step agent ct ca gt cth).2
    ∨ ∃ t c, (chat agent ct ca gt cth body cm).calls
        = (thread_step agent ct ca gt cth).2 ++ [RemoteCall.createMessage t "user" c] := by
  unfold chat
  cases hts : thread_step agent ct ca gt cth with
  | mk res calls0 =>
    cases res with
    | error e => exact Or.inl rfl
    | ok thread =>
      cases body with
      | error e => exact Or.inl rfl
      | ok mf =>
        cases hcm : cm thread.id "user" (mf.getD "") with
        | error e =>
          refine Or.inr ⟨thread.id, mf.getD "", ?_⟩
          dsimp only
          rw [hcm]
        | ok mid =>
          refine Or.inr ⟨thread.id, mf.getD "", ?_⟩
          dsimp only
          rw [hcm]

/-- Claim C1 counterexample: a request with a malformed JSON body and no
cookies is answered 400, but a thread-creation remote call has been made
while handling it, refuting the no-remote-calls part of the claim. -/
theorem chat_invalid_json_thread_call_made :
    (chat (Agent.mk "A") none none (fun _ => Except.ok (AgentThread.mk "T"))
        (Except.ok (AgentThread.mk "T")) (Except.error "Expecting value")
        (fun _ _ _ => Except.ok "mid")).response.statusCode = 400
    ∧ RemoteCall.createThread
        ∈ (chat (Agent.mk "A") none none (fun _ => Except.ok (AgentThread.mk "T"))
            (Except.ok (AgentThread.mk "T")) (Except.error "Expecting value")
            (fun _ _ _ => Except.ok "mid")).calls :=
  ⟨rfl, by decide⟩

/-- Claim C1 (amended): a request whose body is not valid JSON is answered
with HTTP 400 and no message-creation call is made; however, exactly one
thread call (retrieval or creation) has already been made, because the body
is parsed only after the thread step. -/
theorem chat_invalid_json_400_no_message_call (agent : Agent)
    (ct ca : Option String) (gt : String → Except String AgentThread)
    (cth : Except String AgentThread) (e : String)
    (cm : String → String → String → Except String String) :
    (chat agent ct ca gt cth (Except.error e) cm).response.statusCode = 400
    ∧ (∀ t r c, RemoteCall.createMessage t r c
        ∉ (chat agent ct ca gt cth (Except.error e) cm).calls)
    ∧ ((∃ t, (chat agent ct ca gt cth (Except.error e) cm).calls
          = [RemoteCall.getThread t])
       ∨ (chat agent ct ca gt cth (Except.error e) cm).calls
          = [RemoteCall.createThread]) := by
  have hc := thread_step_calls agent ct ca gt cth
  unfold chat
  cases hts : thread_step agent ct ca gt cth with
  | mk res calls0 =>
    rw [hts] at hc
    simp only [Prod.snd] at hc
    cases res with
    | error te =>
      refine ⟨rfl, ?_, ?_⟩
      · intro t r c hmem
        dsimp only at hmem
        rcases hc with hc | hc <;> rw [hc] at hmem <;> simp at hmem
      · dsimp only
        rcases hc with hc | hc
        · exact Or.inl ⟨ct.getD "", hc⟩
        · exact Or.inr hc
    | ok thread =>
      refine ⟨rfl, ?_, ?_⟩
      · intro t r c hmem
        dsimp only at hmem
        rcases hc with hc | hc <;> rw [hc] at hmem <;> simp at hmem
      · dsimp only
        rcases hc with hc | hc
        · exact Or.inl ⟨ct.getD "", hc⟩
        · exact Or.inr hc

/-- Claim C3 counterexample: a valid JSON object body without the message
field is not rejected — the request succeeds (status 200) and an
empty-content user message is posted to the thread. -/
theorem chat_missing_message_posts_empty :
    (chat (Agent.mk "A") none none (fun _ => Except.ok (AgentThread.mk "T"))
        (Except.ok (AgentThread.mk "T")) (Except.ok none)
        (fun _ _ _ => Except.ok "mid")).response.statusCode = 200
    ∧ RemoteCall.createMessage "T" "user" ""
        ∈ (chat (Agent.mk "A") none none (fun _ => Except.ok (AgentThread.mk "T"))
            (Except.ok (AgentThread.mk "T")) (Except.ok none)
            (fun _ _ _ => Except.ok "mid")).calls :=
  ⟨rfl, by decide⟩

/-- Claim C3 (amended): the message field is not enforced — a JSON object
body lacking it is handled exactly like one whose message equals the empty
string (user_data.get with default), so the empty message is posted and no
4xx is returned for the missing field. -/
theorem chat_missing_message_defaults_empty (agent : Agent)
    (ct ca : Option String) (gt : String → Except String AgentThread)
    (cth : Except String AgentThread)
    (cm : String → String → String → Except String String) :
    chat agent ct ca gt cth (Except.ok none) cm
      = chat agent ct ca gt cth (Except.ok (some "")) cm := by
  unfold chat
  cases hts : thread_step agent ct ca gt cth with
  | mk res calls0 =>
    cases res with
    | error e => rfl
    | ok thread => rfl

/-- Claim C4: with a non-empty thread_id cookie and an agent_id cookie equal
to the active agent identity, the existing thread is retrieved and no thread
is created; otherwise a thread-creation call is made; and whenever the
streaming response is returned, its thread_id cookie is the identifier of
the thread obtained by the thread step and its agent_id cookie is the agent
identity. -/
theorem chat_thread_reuse_and_cookies (agent : Agent) (ct ca : Option String)
    (gt : String → Except String AgentThread) (cth : Except String AgentThread)
    (body : Except String (Option String))
    (cm : String → String → String → Except String String) :
    (∀ t, ct = some t → t ≠ "" → ca = some agent.id →
        RemoteCall.createThread ∉ (chat agent ct ca gt cth body cm).calls
        ∧ RemoteCall.getThread t ∈ (chat agent ct ca gt cth body cm).calls)
    ∧ ((pyTruthy ct = false ∨ ca ≠ some agent.id) →
        RemoteCall.createThread ∈ (chat agent ct ca gt cth body cm).calls)
    ∧ (∀ info, (chat agent ct ca gt cth body cm).response = ChatResponse.streaming info →
        info.cookie_agent_id = agent.id
        ∧ (thread_step agent ct ca gt cth).1
          = Except.ok (AgentThread.mk info.cookie_thread_id)) := by
  refine ⟨?_, ?_, ?_⟩
  · intro t hct hne hca
    subst hct
    have hts := thread_step_reuse agent t ca gt cth hne hca
    rcases chat_calls_structure agent (some t) ca gt cth body cm with h | ⟨tid, c, h⟩ <;>
      rw [h, hts] <;> simp
  · intro hmm
    have hts := thread_step_fresh agent ct ca gt cth hmm
    rcases chat_calls_structure agent ct ca gt cth body cm with h | ⟨tid, c, h⟩ <;>
      rw [h, hts] <;> simp
  · intro info h
    unfold chat at h
    cases hts : thread_step agent ct ca gt cth with
    | mk res calls0 =>
      rw [hts] at h
      cases res with
      | error e => simp at h
      | ok thread =>
        cases body with
        | error e => simp at h
        | ok mf =>
          dsimp only at h
          split at h
          · simp at h
          · simp only [ChatResponse.streaming.injEq] at h
            rw [← h]
            exact ⟨rfl, rfl⟩

/-- Claim C4 witness: the reuse case, the fresh case, and the cookie values
of a concrete successful request. -/
theorem chat_thread_reuse_and_cookies_witness :
    (RemoteCall.createThread
        ∉ (chat (Agent.mk "A") (some "T") (some "A")
            (fun t => Except.ok (AgentThread.mk t)) (Except.ok (AgentThread.mk "U"))
            (Except.ok (some "hi")) (fun _ _ _ => Except.ok "mid")).calls
      ∧ RemoteCall.getThread "T"
        ∈ (chat (Agent.mk "A") (some "T") (some "A")
            (fun t => Except.ok (AgentThread.mk t)) (Except.ok (AgentThread.mk "U"))
            (Except.ok (some "hi")) (fun _ _ _ => Except.ok "mid")).calls)
    ∧ RemoteCall.createThread
        ∈ (chat (Agent.mk "A") none none
            (fun t => Except.ok (AgentThread.mk t)) (Except.ok (AgentThread.mk "U"))
            (Except.ok (some "hi")) (fun _ _ _ => Except.ok "mid")).calls
    ∧ ((StreamingInfo.mk "T" "A" "text/event-stream").cookie_agent_id = "A"
      ∧ (thread_step (Agent.mk "A") (some "T") (some "A")
            (fun t => Except.ok (AgentThread.mk t)) (Except.ok (AgentThread.mk "U"))).1
        = Except.ok (AgentThread.mk "T")) := by
  refine ⟨?_, ?_, ?_⟩
  · exact (chat_thread_reuse_and_cookies (Agent.mk "A") (some "T") (some "A")
      (fun t => Except.ok (AgentThread.mk t)) (Except.ok (AgentThread.mk "U"))
      (Except.ok (some "hi")) (fun _ _ _ => Except.ok "mid")).1 "T" rfl (by decide) rfl
  · exact (chat_thread_reuse_and_cookies (Agent.mk "A") none none
      (fun t => Except.ok (AgentThread.mk t)) (Except.ok (AgentThread.mk "U"))
      (Except.ok (some "hi")) (fun _ _ _ => Except.ok "mid")).2.1 (Or.inl rfl)
  · exact (chat_thread_reuse_and_cookies (Agent.mk "A") (some "T") (some "A")
      (fun t => Except.ok (AgentThread.mk t)) (Except.ok (AgentThread.mk "U"))
      (Except.ok (some "hi")) (fun _ _ _ => Except.ok "mid")).2.2
      (StreamingInfo.mk "T" "A" "text/event-stream") rfl

/-- Claim C1 witness: the amended statement at a concrete request. -/
theorem chat_invalid_json_400_no_message_call_witness :
    (chat (Agent.mk "A") none none (fun _ => Except.ok (AgentThread.mk "T"))
        (Except.ok (AgentThread.mk "T")) (Except.error "bad")
        (fun _ _ _ => Except.ok "m")).response.statusCode = 400
    ∧ RemoteCall.createMessage "T" "user" "hi"
        ∉ (chat (Agent.mk "A") none none (fun _ => Except.ok (AgentThread.mk "T"))
            (Except.ok (AgentThread.mk "T")) (Except.error "bad")
            (fun _ _ _ => Except.ok "m")).calls :=
  ⟨(chat_invalid_json_400_no_message_call (Agent.mk "A") none none
      (fun _ => Except.ok (AgentThread.mk "T")) (Except.ok (AgentThread.mk "T"))
      "bad" (fun _ _ _ => Except.ok "m")).1,
   (chat_invalid_json_400_no_message_call (Agent.mk "A") none none
      (fun _ => Except.ok (AgentThread.mk "T")) (Except.ok (AgentThread.mk "T"))
      "bad" (fun _ _ _ => Except.ok "m")).2.1 "T" "user" "hi"⟩
